import Mathlib

/-!
Verification of the CQL-to-Go struct scaffolder (`src/main.go`) against its
natural-language specification.

Strings are modelled as `List Char`.  The Go program's pure core is embedded
faithfully:

* `lowerTrim` models `strings.ToLower(strings.TrimSpace s)` (main.go:84);
  trimming and lowering are modelled on the ASCII/Latin-1 range, which covers
  every catalog type token.
* `matchMap`, `matchListPat`, `matchSetPat` model the three anchored regexes
  `^map<(.+),(.+)>$`, `^list<(.+)>$`, `^set<(.+)>$` (main.go:85-87) under Go's
  leftmost-first greedy submatch semantics: for the map pattern, the first
  greedy `(.+)` pushes the separating comma as far right as possible, so the
  body is split at the last comma admitting non-empty groups on both sides.
* `cqlGo`/`cqlToGoType` model `cqlToGoType` (main.go:83-158).  The Go function
  recurses on strict substrings, so recursion depth is bounded by the input
  length; the embedding makes that bound explicit with a fuel argument that is
  always sufficient (`length + 1` at entry, and every recursive argument is
  strictly shorter than its caller's input).
* `camelLoop`/`toCamel` model the dependency `github.com/iancoleman/strcase`'s
  `ToCamel` (its `toCamelInitCase` byte loop with the default empty acronym
  table), used at main.go:76 and main.go:161.
* `toPascal` models `toPascal` (main.go:160-163); indexing `camel[0]` panics on
  an empty camel string, modelled as `none`.
* `mkField`/`assembleFields`/`renderField`/`generateGoStruct` model
  `generateGoStruct` (main.go:66-81): the per-column `Sprintf` at main.go:76 is
  factored into a `FieldDef` record plus `renderField`, whose concatenation is
  character-for-character the source's format string.
* `collectStructDefs` models `main`'s generation loop (main.go:194-208) with
  column fetches succeeding: a `generateGoStruct` error reaches `panic(err)`
  (main.go:204) and aborts the whole run, modelled as `Except.error` that
  discards every remaining table.

`SpecTypeDescriptor` / `specRenderCql` / `specFixedScalarNames` are the only
definitions written from the specification's words rather than the source:
the implementation has no descriptor type and no fixed scalar-name list, and
the round-trip and scalar-set claims quantify over those spec-level objects.
-/

namespace CqlScaffold

/-- Whitespace recognised by Go's `strings.TrimSpace` on the Latin-1 range
(`unicode.IsSpace`): space, tab, newline, vertical tab, form feed, carriage
return, next line, and no-break space. -/
def isSpace (c : Char) : Bool :=
  c = ' ' || c = '\t' || c = '\n' || c = '\x0b' || c = '\x0c' || c = '\r' ||
    c = '\u0085' || c = ' '

/-- `strings.TrimSpace`: drop leading and trailing whitespace. -/
def trim (s : List Char) : List Char :=
  ((s.dropWhile isSpace).reverse.dropWhile isSpace).reverse

/-- ASCII upper-case letter test, as in the strcase byte loop. -/
def isCapB (c : Char) : Bool := 'A' ≤ c && c ≤ 'Z'

/-- ASCII lower-case letter test, as in the strcase byte loop. -/
def isLowB (c : Char) : Bool := 'a' ≤ c && c ≤ 'z'

/-- ASCII digit test, as in the strcase byte loop. -/
def isNumB (c : Char) : Bool := '0' ≤ c && c ≤ '9'

/-- ASCII lowering of one character (`v += 'a' - 'A'`). -/
def toLowerChar (c : Char) : Char :=
  if isCapB c then Char.ofNat (c.toNat + 32) else c

/-- ASCII raising of one character (`v += 'A' - 'a'`). -/
def toUpperChar (c : Char) : Char :=
  if isLowB c then Char.ofNat (c.toNat - 32) else c

/-- `strings.ToLower(strings.TrimSpace s)`, the normalisation at the top of
`cqlToGoType` (main.go:84). -/
def lowerTrim (s : List Char) : List Char := (trim s).map toLowerChar

/-- Scan of the reversed `map<...>` body implementing the greedy submatch of
`^map<(.+),(.+)>$`: walking the body from its right end, the first comma with
a non-empty part on each side is the split the regex engine commits to
(the first `(.+)` is greedy, so the separating comma is the rightmost one
that still lets both groups be non-empty).  `acc` holds the characters
already passed over, which form the second group in source order. -/
def goSplit (acc : List Char) : List Char → Option (List Char × List Char)
  | [] => none
  | c :: rest =>
    if c = ',' ∧ acc ≠ [] ∧ rest ≠ [] then some (rest.reverse, acc)
    else goSplit (c :: acc) rest

/-- Split a map body at the comma chosen by the greedy regex, if any. -/
def splitAtLastComma (m : List Char) : Option (List Char × List Char) :=
  goSplit [] m.reverse

/-- `^map<(.+),(.+)>$` (main.go:85): anchored literal prefix `map<`, final
character `>`, and the greedy two-group split of the body in between. -/
def matchMap (t : List Char) : Option (List Char × List Char) :=
  if t.take 4 = String.toList "map<" ∧ t.getLast? = some '>' then
    splitAtLastComma ((t.drop 4).dropLast)
  else none

/-- `^list<(.+)>$` (main.go:86): prefix `list<`, final `>`, non-empty body. -/
def matchListPat (t : List Char) : Option (List Char) :=
  if t.take 5 = String.toList "list<" ∧ t.getLast? = some '>' ∧
      (t.drop 5).dropLast ≠ [] then
    some ((t.drop 5).dropLast)
  else none

/-- `^set<(.+)>$` (main.go:87): prefix `set<`, final `>`, non-empty body. -/
def matchSetPat (t : List Char) : Option (List Char) :=
  if t.take 4 = String.toList "set<" ∧ t.getLast? = some '>' ∧
      (t.drop 4).dropLast ≠ [] then
    some ((t.drop 4).dropLast)
  else none

/-- The scalar `switch` of `cqlToGoType` (main.go:126-157) as a lookup table:
normalised CQL token paired with the Go rendering the source returns. -/
def scalarTable : List (List Char × List Char) :=
  [ (String.toList "uuid", String.toList "gocql.UUID"),
    (String.toList "time.uuid", String.toList "gocql.UUID"),
    (String.toList "boolean", String.toList "bool"),
    (String.toList "text", String.toList "string"),
    (String.toList "varchar", String.toList "string"),
    (String.toList "int", String.toList "int"),
    (String.toList "bigint", String.toList "int64"),
    (String.toList "tinyint", String.toList "int8"),
    (String.toList "smallint", String.toList "int16"),
    (String.toList "float", String.toList "float32"),
    (String.toList "double", String.toList "float64"),
    (String.toList "decimal", String.toList "gocql.Decimal"),
    (String.toList "timestamp", String.toList "time.Time"),
    (String.toList "date", String.toList "gocql.Date"),
    (String.toList "time", String.toList "gocql.Time"),
    (String.toList "blob", String.toList "[]byte") ]

/-- First matching case of the scalar switch, if any. -/
def scalarLookup (t : List Char) : Option (List Char) :=
  (scalarTable.find? (fun p => p.1 == t)).map Prod.snd

/-- `cqlToGoType` (main.go:83-158) with explicit recursion fuel.  Each
recursive call receives a regex group, a strict substring of the normalised
input, so `length + 1` fuel at entry (see `cqlToGoType`) always suffices and
the fuel-exhausted branch is unreachable. -/
def cqlGo : Nat → List Char → Except (List Char) (List Char)
  | 0, _ => Except.error (String.toList "out of fuel")
  | fuel + 1, s =>
    match matchMap (lowerTrim s) with
    | some kv =>
      match cqlGo fuel kv.1 with
      | Except.error e => Except.error e
      | Except.ok gk =>
        match cqlGo fuel kv.2 with
        | Except.error e => Except.error e
        | Except.ok gv =>
          Except.ok (String.toList "map[" ++ gk ++ String.toList "]" ++ gv)
    | none =>
      match matchListPat (lowerTrim s) with
      | some inner =>
        match cqlGo fuel inner with
        | Except.error e => Except.error e
        | Except.ok g => Except.ok (String.toList "[]" ++ g)
      | none =>
        match matchSetPat (lowerTrim s) with
        | some inner =>
          match cqlGo fuel inner with
          | Except.error e => Except.error e
          | Except.ok g =>
            Except.ok (String.toList "map[" ++ g ++ String.toList "]struct\x7b\x7d")
        | none =>
          match scalarLookup (lowerTrim s) with
          | some g => Except.ok g
          | none => Except.error (String.toList "unknown CQL type: " ++ lowerTrim s)

/-- `cqlToGoType` (main.go:83): translate one catalog type string to its Go
rendering, or fail with the `unknown CQL type` error. -/
def cqlToGoType (s : List Char) : Except (List Char) (List Char) :=
  cqlGo (s.length + 1) s

/-- The byte loop of strcase's `toCamelInitCase` (default empty acronym
table): `capNext` starts true for `ToCamel`; letters are emitted (capitalised
when `capNext`), digits are emitted and set `capNext`, separators `_`, space,
`-`, `.` set `capNext`, any other byte is dropped without setting it. -/
def camelLoop : Bool → Bool → List Char → List Char
  | _, _, [] => []
  | capNext, isFirst, c :: rest =>
    let v :=
      if capNext then (if isLowB c then toUpperChar c else c)
      else if isFirst then (if isCapB c then toLowerChar c else c)
      else c
    if isCapB c || isLowB c then v :: camelLoop false false rest
    else if isNumB c then c :: camelLoop true false rest
    else camelLoop (c == '_' || c == ' ' || c == '-' || c == '.') false rest

/-- `strcase.ToCamel` (used at main.go:76 and main.go:161): trim, then run the
camel loop with initial capitalisation. -/
def toCamel (s : List Char) : List Char := camelLoop true true (trim s)

/-- `toPascal` (main.go:160-163): upper-case the first byte of the camelised
value.  Indexing `camel[0]` panics (index out of range) when the camel string
is empty, modelled as `none`. -/
def toPascal (value : List Char) : Option (List Char) :=
  match toCamel value with
  | [] => none
  | c :: rest => some (toUpperChar c :: rest)

/-- One generated struct field: identifier, Go type, and serialised tag, the
three `%s` holes of the `Sprintf` at main.go:76. -/
structure FieldDef where
  ident : List Char
  goType : List Char
  tag : List Char

/-- Build one field from a column: Go type via `cqlToGoType` (propagating its
error, main.go:70-74), identifier via `strcase.ToCamel(column)`, and the tag
is the untransformed column name (main.go:76). -/
def mkField (column cqlTy : List Char) : Except (List Char) FieldDef :=
  match cqlToGoType cqlTy with
  | Except.error e => Except.error e
  | Except.ok g => Except.ok ⟨toCamel column, g, column⟩

/-- The column loop of `generateGoStruct` (main.go:69-77) over the iteration
sequence of the column map, returning the first `cqlToGoType` error. -/
def assembleFields : List (List Char × List Char) → Except (List Char) (List FieldDef)
  | [] => Except.ok []
  | (c, ty) :: rest =>
    match mkField c ty with
    | Except.error e => Except.error e
    | Except.ok f =>
      match assembleFields rest with
      | Except.error e => Except.error e
      | Except.ok fs => Except.ok (f :: fs)

/-- The field line `Sprintf("    %s %s `json:\"%s\"`\n", ...)` of main.go:76,
character for character. -/
def renderField (f : FieldDef) : List Char :=
  String.toList "    " ++ f.ident ++ String.toList " " ++ f.goType ++
    String.toList " \x60json:\x22" ++ f.tag ++ String.toList "\x22\x60\n"

/-- `generateGoStruct` (main.go:66-81): header `type <Pascal> struct {`, one
rendered line per column in iteration order, closing `}`.  The `columns`
argument is the iteration sequence of Go's `map[string]string` — Go gives no
order guarantee for `range` over a map, so the order is an input here. -/
def generateGoStruct (tableName : List Char) (columns : List (List Char × List Char)) :
    Except (List Char) (List Char) :=
  match toPascal tableName with
  | none => Except.error (String.toList "panic: index out of range")
  | some pascalName =>
    match assembleFields columns with
    | Except.error e => Except.error e
    | Except.ok fs =>
      Except.ok (String.toList "type " ++ pascalName ++ String.toList " struct \x7b\n" ++
        (fs.map renderField).flatten ++ String.toList "\x7d\n")

/-- `main`'s generation loop (main.go:194-208) with every column fetch
succeeding: a `generateGoStruct` error reaches `panic(err)` (main.go:204),
which aborts the whole run — modelled as an `Except.error` that discards
every sibling table's output. -/
def collectStructDefs :
    List (List Char × List (List Char × List Char)) → Except (List Char) (List (List Char))
  | [] => Except.ok []
  | (tn, cols) :: rest =>
    match generateGoStruct tn cols with
    | Except.error e => Except.error e
    | Except.ok d =>
      match collectStructDefs rest with
      | Except.error e => Except.error e
      | Except.ok ds => Except.ok (d :: ds)

/-- The payload of an `Except`, ignoring which side it is; used only to derive
inequalities between computed results. -/
def okPayload (e : Except (List Char) (List Char)) : List Char :=
  match e with
  | Except.ok v => v
  | Except.error v => v

/-- The specification's fixed scalar name set (glossary), written as the
catalog token of each scalar kind: kind int32 is catalog token `int`, int64 is
`bigint`, int8 is `tinyint`, int16 is `smallint`, float32 is `float`, float64
is `double`, identifier/UUID is `uuid`.  `varchar` and `time.uuid` are
deliberately absent: the spec does not list them. -/
def specFixedScalarNames : List (List Char) :=
  [ String.toList "boolean", String.toList "text", String.toList "int",
    String.toList "bigint", String.toList "tinyint", String.toList "smallint",
    String.toList "float", String.toList "double", String.toList "decimal",
    String.toList "timestamp", String.toList "date", String.toList "time",
    String.toList "blob", String.toList "uuid" ]

/-- The specification's `TypeDescriptor` (spec §3): scalar, list, set, or map.
The implementation has no descriptor type; this follows the spec's words and
exists only to state the round-trip claim over descriptors. -/
inductive SpecTypeDescriptor where
  | scalar (name : List Char)
  | listOf (elem : SpecTypeDescriptor)
  | setOf (elem : SpecTypeDescriptor)
  | mapOf (key value : SpecTypeDescriptor)

/-- Rendering of a spec descriptor back to a catalog type string, following
the grammar of spec §4.1 and the spacing of its own example
`map<text, map<int, int>>`. -/
def specRenderCql : SpecTypeDescriptor → List Char
  | SpecTypeDescriptor.scalar n => n
  | SpecTypeDescriptor.listOf e =>
      String.toList "list<" ++ specRenderCql e ++ String.toList ">"
  | SpecTypeDescriptor.setOf e =>
      String.toList "set<" ++ specRenderCql e ++ String.toList ">"
  | SpecTypeDescriptor.mapOf k v =>
      String.toList "map<" ++ specRenderCql k ++ String.toList ", " ++
        specRenderCql v ++ String.toList ">"

/-- When a token is not among the switch cases, the scalar lookup fails. -/
theorem scalarLookup_eq_none {t : List Char} (h : t ∉ scalarTable.map Prod.fst) :
    scalarLookup t = none := by
  have hf : scalarTable.find? (fun p => p.1 == t) = none := by
    rw [List.find?_eq_none]
    intro p hp hbeq
    exact h (List.mem_map.mpr ⟨p, hp, eq_of_beq hbeq⟩)
  unfold scalarLookup
  rw [hf]
  rfl

/-- A successfully built field carries the untransformed column name as tag. -/
theorem mkField_tag {c ty : List Char} {f : FieldDef}
    (h : mkField c ty = Except.ok f) : f.tag = c := by
  unfold mkField at h
  split at h
  · exact Except.noConfusion h
  · injection h with h
    rw [← h]

/-- Inversion of one successful step of the column loop. -/
theorem assembleFields_cons_ok {c ty : List Char} {rest : List (List Char × List Char)}
    {fs : List FieldDef} (h : assembleFields ((c, ty) :: rest) = Except.ok fs) :
    ∃ f fs2, mkField c ty = Except.ok f ∧ assembleFields rest = Except.ok fs2 ∧
      fs = f :: fs2 := by
  simp only [assembleFields] at h
  split at h
  · exact Except.noConfusion h
  · rename_i f hf
    split at h
    · exact Except.noConfusion h
    · rename_i fs2 hfs2
      injection h with h
      exact ⟨f, fs2, hf, hfs2, h.symm⟩

/-- C1: the claim states that the type mapper locates the separating comma of
a `map<...>` body by tracking angle-bracket nesting depth, so that
`map<text, map<int, int>>` parses to Map(text, Map(int,int)).  The code
instead matches the greedy regex `^map<(.+),(.+)>$`, which splits the body at
its last comma, producing the key token `text, map<int` and failing with the
unknown-type error on that token. -/
theorem c1_nested_map_comma_split_fails :
    cqlToGoType (String.toList "map<text, map<int, int>>") =
      Except.error (String.toList "unknown CQL type: text, map<int") := rfl

/-- C2: the claim states that a table with an unmapped column type is skipped
with a logged error while sibling tables are still generated.  In the code a
`generateGoStruct` error reaches `panic(err)` and aborts the whole run: with
a bad table followed by a perfectly generatable sibling, the loop yields only
the error and the sibling struct (shown generatable on its own) is lost. -/
theorem c2_generation_error_aborts_run :
    collectStructDefs
        [ (String.toList "bad_table", [(String.toList "c", String.toList "duration")]),
          (String.toList "good_table", [(String.toList "id", String.toList "int")]) ] =
      Except.error (String.toList "unknown CQL type: duration") ∧
    generateGoStruct (String.toList "good_table")
        [(String.toList "id", String.toList "int")] =
      Except.ok (String.toList
        "type GoodTable struct \x7b\n    Id int \x60json:\x22id\x22\x60\n\x7d\n") :=
  ⟨rfl, rfl⟩

/-- C3, counterexample: `varchar` is outside the fixed scalar set named by the
spec, yet the mapper accepts it and returns the text rendering instead of
failing with the unknown-type error, so the claim as stated is false. -/
theorem c3_counterexample_varchar :
    String.toList "varchar" ∉ specFixedScalarNames ∧
    cqlToGoType (String.toList "varchar") = Except.ok (String.toList "string") :=
  ⟨by decide, rfl⟩

/-- C3, amended: for every case and surrounding-whitespace variant of a token
of the scalar switch — the fixed scalar set extended with the synonyms
`varchar` and `time.uuid` — the mapper returns the corresponding rendering;
every token outside that extended set which matches no collection pattern
fails with the unknown-type error, never a default type. -/
theorem c3_amended_scalar_mapping :
    (∀ p ∈ scalarTable, ∀ s : List Char, lowerTrim s = p.1 →
        cqlToGoType s = Except.ok p.2) ∧
    (∀ s : List Char, lowerTrim s ∉ scalarTable.map Prod.fst →
        matchMap (lowerTrim s) = none → matchListPat (lowerTrim s) = none →
        matchSetPat (lowerTrim s) = none →
        cqlToGoType s =
          Except.error (String.toList "unknown CQL type: " ++ lowerTrim s)) := by
  constructor
  · intro p hp s h
    fin_cases hp <;> (unfold cqlToGoType cqlGo; rw [h]; rfl)
  · intro s hns h1 h2 h3
    have hsl : scalarLookup (lowerTrim s) = none := scalarLookup_eq_none hns
    unfold cqlToGoType cqlGo
    rw [h1, h2, h3, hsl]

/-- C3, witness: a case-and-whitespace variant of `text` maps to `string`,
and the unmapped scalar `duration` fails with the unknown-type error. -/
theorem c3_amended_witness :
    cqlToGoType (String.toList " TEXT ") = Except.ok (String.toList "string") ∧
    cqlToGoType (String.toList "duration") =
      Except.error (String.toList "unknown CQL type: duration") := by
  constructor
  · exact c3_amended_scalar_mapping.1 (String.toList "text", String.toList "string")
      (by decide) (String.toList " TEXT ") rfl
  · exact c3_amended_scalar_mapping.2 (String.toList "duration") (by decide) rfl rfl rfl

/-- C4: for every column of every assembled table, the serialised tag of the
generated field is the original, untransformed catalog column name, whatever
the identifier-casing transform does to the field name. -/
theorem c4_serialized_tags_are_column_names :
    ∀ (cols : List (List Char × List Char)) (fs : List FieldDef),
      assembleFields cols = Except.ok fs →
      fs.map FieldDef.tag = cols.map Prod.fst := by
  intro cols
  induction cols with
  | nil =>
    intro fs h
    simp only [assembleFields] at h
    injection h with h
    rw [← h]
    rfl
  | cons p rest ih =>
    intro fs h
    obtain ⟨c, ty⟩ := p
    obtain ⟨f, fs2, hf, hfs2, rfl⟩ := assembleFields_cons_ok h
    simp only [List.map]
    rw [mkField_tag hf, ih fs2 hfs2]

/-- C4, witness: assembling the single column `user_id : int` yields a field
whose tag is exactly `user_id` even though the identifier is `UserId`. -/
theorem c4_witness :
    ([⟨String.toList "UserId", String.toList "int", String.toList "user_id"⟩] :
        List FieldDef).map FieldDef.tag = [String.toList "user_id"] :=
  c4_serialized_tags_are_column_names
    [(String.toList "user_id", String.toList "int")] _ rfl

/-- C5: the claim states that two generations over the same column set yield
the record fields in the same order.  The code iterates a Go
`map[string]string`, whose `range` order carries no guarantee and is
randomised between runs; the generated text is a function of that iteration
order, not of the column set: the two orders of the same two-column set below
produce different struct text. -/
theorem c5_field_order_not_a_function_of_column_set :
    List.Perm
        [(String.toList "a", String.toList "int"),
         (String.toList "b", String.toList "text")]
        [(String.toList "b", String.toList "text"),
         (String.toList "a", String.toList "int")] ∧
    generateGoStruct (String.toList "t")
        [(String.toList "a", String.toList "int"),
         (String.toList "b", String.toList "text")] ≠
      generateGoStruct (String.toList "t")
        [(String.toList "b", String.toList "text"),
         (String.toList "a", String.toList "int")] := by
  constructor
  · exact List.Perm.swap _ _ _
  · intro hcontra
    exact absurd (congrArg okPayload hcontra) (by decide)

/-- C6: the claim states that two columns collapsing to one identifier make
assembly fail with IdentifierConflictError.  The code performs no conflict
check: `user_id` and `userId` both camelise to `UserId`, and assembly
succeeds, emitting both fields under the same duplicate identifier. -/
theorem c6_duplicate_identifiers_emitted_without_error :
    assembleFields
        [(String.toList "user_id", String.toList "int"),
         (String.toList "userId", String.toList "int")] =
      Except.ok
        [⟨String.toList "UserId", String.toList "int", String.toList "user_id"⟩,
         ⟨String.toList "UserId", String.toList "int", String.toList "userId"⟩] := rfl

/-- C7: the claim states the identifier transform never returns an empty
string and prepends a fixed prefix when the result would start with a
non-letter.  The code does neither: the transform of the column name `_` is
the empty string, `toPascal` on the same input hits the `camel[0]` panic
(index out of range, modelled as `none`), and the digit-initial column
`1tag` becomes `1Tag` with no prefix prepended. -/
theorem c7_identifier_transform_unsafe :
    toCamel (String.toList "_") = [] ∧
    toPascal (String.toList "_") = none ∧
    toCamel (String.toList "1tag") = String.toList "1Tag" :=
  ⟨rfl, rfl, rfl⟩

/-- C8: the claim states that collection strings up to some nesting bound D
round-trip through construction, rendering, and re-parsing.  The spec fixes
its own nested example `map<text, map<int, int>>` at depth two, yet the code
fails to re-parse exactly that rendering of Map(text, Map(int,int)) — while
the depth-one rendering of Map(text, int) does round-trip into the expected
Go type — so no bound D covering the nested case exists. -/
theorem c8_roundtrip_fails_at_depth_two :
    cqlToGoType (specRenderCql (SpecTypeDescriptor.mapOf
        (SpecTypeDescriptor.scalar (String.toList "text"))
        (SpecTypeDescriptor.mapOf (SpecTypeDescriptor.scalar (String.toList "int"))
          (SpecTypeDescriptor.scalar (String.toList "int"))))) =
      Except.error (String.toList "unknown CQL type: text, map<int") ∧
    cqlToGoType (specRenderCql (SpecTypeDescriptor.mapOf
        (SpecTypeDescriptor.scalar (String.toList "text"))
        (SpecTypeDescriptor.scalar (String.toList "int")))) =
      Except.ok (String.toList "map[string]int") :=
  ⟨rfl, rfl⟩

/-- C9: every input whose trimmed, lowercased form is `varchar` maps exactly
as `text` does — the accepted synonym of the text scalar. -/
theorem c9_varchar_maps_like_text (s : List Char)
    (h : lowerTrim s = String.toList "varchar") :
    cqlToGoType s = cqlToGoType (String.toList "text") := by
  unfold cqlToGoType cqlGo
  rw [h]
  rfl

/-- C9, witness: the case-and-whitespace variant ` VarChar ` maps as `text`. -/
theorem c9_witness :
    cqlToGoType (String.toList " VarChar ") = cqlToGoType (String.toList "text") :=
  c9_varchar_maps_like_text (String.toList " VarChar ") rfl

/-- C10: the literal token `time.uuid` is recognised and rendered as
`gocql.UUID`, while `timeuuid` matches no rule and fails with the
unknown-type error. -/
theorem c10_time_dot_uuid_recognised_timeuuid_not :
    cqlToGoType (String.toList "time.uuid") = Except.ok (String.toList "gocql.UUID") ∧
    cqlToGoType (String.toList "timeuuid") =
      Except.error (String.toList "unknown CQL type: timeuuid") :=
  ⟨rfl, rfl⟩

end CqlScaffold
